import Mathlib

/-!
Verification of the `HeapAudioBuffer` WASM-heap wrapper
(`src/wasm-audio-helper.ts`) against its natural-language specification.

The embedding mirrors the TypeScript source: the Emscripten module (the
foreign memory owner) is modelled operationally as a state that records
every `_malloc` size request and `_free` pointer, and returns `nextPtr`
as the base of the single allocation.  A `Float32Array` subarray of
`HEAPF32` is modelled by its pair of element indices into `HEAPF32`
(each element being 4 bytes).  All JS numbers that the code treats as
integers are modelled as `Int` (fields, indices) or `Nat` (lengths and
byte offsets, which are non-negative in every reachable computation).
-/

-- Byte per audio sample. (32 bit float)
def BYTES_PER_SAMPLE : Nat := 4

-- Basic byte unit of WASM heap. (16 bit = 2 bytes)
def BYTES_PER_UNIT : Nat := 2

-- The max audio channel on Chrome is 32.
def MAX_CHANNEL_COUNT : Int := 32

-- WebAudio's render quantum size.
def RENDER_QUANTUM_FRAMES : Nat := 128

/-- The foreign memory owner (Emscripten module): `_malloc` returns
`nextPtr` and records the requested byte size; `_free` records the
pointer it is handed.  `HEAPF32` itself is left abstract -- views into
it are represented by index pairs. -/
structure EmscriptenModule where
  nextPtr : Nat
  mallocLog : List Int
  freeLog : List Nat
  deriving Repr, DecidableEq

/-- `this._module._malloc(dataByteSize)` -/
def EmscriptenModule.malloc (m : EmscriptenModule) (dataByteSize : Int) :
    Nat × EmscriptenModule :=
  (m.nextPtr, { m with mallocLog := m.mallocLog ++ [dataByteSize] })

/-- `this._module._free(ptr)` -/
def EmscriptenModule.freeCall (m : EmscriptenModule) (ptr : Nat) :
    EmscriptenModule :=
  { m with freeLog := m.freeLog ++ [ptr] }

/-- A `Float32Array` subarray of `HEAPF32`: the half-open range of
`HEAPF32` element indices it covers (one element = 4 bytes). -/
structure Float32View where
  startIdx : Nat
  endIdx : Nat
  deriving Repr, DecidableEq

/-- First byte covered by the view. -/
def Float32View.byteStart (v : Float32View) : Nat :=
  v.startIdx * BYTES_PER_SAMPLE

/-- One past the last byte covered by the view. -/
def Float32View.byteEnd (v : Float32View) : Nat :=
  v.endIdx * BYTES_PER_SAMPLE

/-- Number of 32-bit floats in the view. -/
def Float32View.numFloats (v : Float32View) : Nat :=
  v.endIdx - v.startIdx

/-- State of a `HeapAudioBuffer` instance, field for field. -/
structure HeapAudioBuffer where
  _channelCount : Int
  _channelData : List Float32View
  _dataPtr : Nat
  _isInitialized : Bool
  _length : Nat
  _maxChannelCount : Int
  _module : EmscriptenModule
  deriving Repr, DecidableEq

/-- `_allocateHeap()` as called from the constructor: computes the byte
size from `_length` and `_channelCount`, calls `_malloc`, and builds one
`HEAPF32.subarray(startByteOffset >> BYTES_PER_UNIT, endByteOffset >>
BYTES_PER_UNIT)` view per channel (`>> 2` divides the byte offset
by 4).  Returns the data pointer, the channel views and the updated
module state. -/
def allocateHeap (m : EmscriptenModule) (length : Nat) (channelCount : Int) :
    Nat × List Float32View × EmscriptenModule :=
  let channelByteSize := length * BYTES_PER_SAMPLE
  let dataByteSize : Int := channelCount * (channelByteSize : Int)
  let res := m.malloc dataByteSize
  let dataPtr := res.1
  let channelData := (List.range channelCount.toNat).map (fun i =>
    let startByteOffset := dataPtr + i * channelByteSize
    let endByteOffset := startByteOffset + channelByteSize
    { startIdx := startByteOffset >>> BYTES_PER_UNIT,
      endIdx := endByteOffset >>> BYTES_PER_UNIT : Float32View })
  (dataPtr, channelData, res.2)

/-- The constructor.  `maxChannelCount ? Math.min(maxChannelCount,
MAX_CHANNEL_COUNT) : channelCount` is a JS truthiness test: a supplied
value of `0` is falsy and falls through to `channelCount`.  The optional
argument is modelled as `Option Int`; `some 0` is the explicitly-passed
zero. -/
def HeapAudioBuffer.construct (wasmModule : EmscriptenModule) (length : Nat)
    (channelCount : Nat) (maxChannelCount : Option Int) : HeapAudioBuffer :=
  let maxCh : Int :=
    match maxChannelCount with
    | some v => if v ≠ 0 then min v MAX_CHANNEL_COUNT else (channelCount : Int)
    | none => (channelCount : Int)
  let alloc := allocateHeap wasmModule length (channelCount : Int)
  { _channelCount := (channelCount : Int)
    _channelData := alloc.2.1
    _dataPtr := alloc.1
    _isInitialized := true
    _length := length
    _maxChannelCount := maxCh
    _module := alloc.2.2 }

/-- `adaptChannel(newChannelCount)`: assigns `_channelCount` only when
`newChannelCount < this._maxChannelCount`, otherwise does nothing. -/
def HeapAudioBuffer.adaptChannel (b : HeapAudioBuffer)
    (newChannelCount : Int) : HeapAudioBuffer :=
  if newChannelCount < b._maxChannelCount then
    { b with _channelCount := newChannelCount }
  else b

/-- `get length()` -/
def HeapAudioBuffer.length (b : HeapAudioBuffer) : Option Nat :=
  if b._isInitialized then some b._length else none

/-- `get numberOfChannels()` -/
def HeapAudioBuffer.numberOfChannels (b : HeapAudioBuffer) : Option Int :=
  if b._isInitialized then some b._channelCount else none

/-- `get maxChannelCount()` -/
def HeapAudioBuffer.maxChannelCount (b : HeapAudioBuffer) : Option Int :=
  if b._isInitialized then some b._maxChannelCount else none

/-- `getChannelData()` (no-argument overload): returns the whole
`_channelData` array. -/
def HeapAudioBuffer.getChannelDataAll (b : HeapAudioBuffer) :
    List Float32View :=
  b._channelData

/-- `getChannelData(channelIndex)` (indexed overload).  The guard
`channelIndex && channelIndex >= this._channelCount` only fires for a
truthy (nonzero) index; otherwise the JS indexing
`this._channelData[channelIndex]` yields the element, or `undefined`
for a negative or out-of-range index. -/
def HeapAudioBuffer.getChannelData (b : HeapAudioBuffer)
    (channelIndex : Int) : Option Float32View :=
  if channelIndex ≠ 0 ∧ b._channelCount ≤ channelIndex then
    none
  else if channelIndex < 0 then
    none
  else
    b._channelData.get? channelIndex.toNat

/-- `getHeapAddress()`: returns `_dataPtr` unconditionally (no
`_isInitialized` check in the source). -/
def HeapAudioBuffer.getHeapAddress (b : HeapAudioBuffer) : Nat :=
  b._dataPtr

/-- `getPointer()`: identical to `getHeapAddress`. -/
def HeapAudioBuffer.getPointer (b : HeapAudioBuffer) : Nat :=
  b._dataPtr

/-- `free()`: clears `_isInitialized`, hands `_dataPtr` to the owner's
`_free`, and empties `_channelData`. -/
def HeapAudioBuffer.free (b : HeapAudioBuffer) : HeapAudioBuffer :=
  { b with
    _isInitialized := false
    _module := b._module.freeCall b._dataPtr
    _channelData := [] }

/-- Runs a sequence of `adaptChannel` calls.  While an instance is
initialized the only mutating operation is `adaptChannel`, so the
initialized states reachable from a construction are exactly
`runAdapts (construct ...) ns`. -/
def runAdapts (b : HeapAudioBuffer) : List Int → HeapAudioBuffer
  | [] => b
  | n :: ns => runAdapts (b.adaptChannel n) ns

/-! ### Helper lemmas -/

lemma construct_dataPtr (m : EmscriptenModule) (L cc : Nat) (mx : Option Int) :
    (HeapAudioBuffer.construct m L cc mx)._dataPtr = m.nextPtr := rfl

lemma adaptChannel_module (b : HeapAudioBuffer) (n : Int) :
    (b.adaptChannel n)._module = b._module := by
  unfold HeapAudioBuffer.adaptChannel
  split <;> rfl

lemma adaptChannel_channelData (b : HeapAudioBuffer) (n : Int) :
    (b.adaptChannel n)._channelData = b._channelData := by
  unfold HeapAudioBuffer.adaptChannel
  split <;> rfl

lemma adaptChannel_channelCount_le (b : HeapAudioBuffer) (n : Int)
    (h : b._channelCount ≤ b._maxChannelCount) :
    (b.adaptChannel n)._channelCount ≤ (b.adaptChannel n)._maxChannelCount := by
  unfold HeapAudioBuffer.adaptChannel
  split
  · next hlt => simpa using le_of_lt hlt
  · exact h

lemma runAdapts_module (b : HeapAudioBuffer) (ns : List Int) :
    (runAdapts b ns)._module = b._module := by
  induction ns generalizing b with
  | nil => rfl
  | cons n ns ih => rw [runAdapts, ih, adaptChannel_module]

lemma runAdapts_channelData (b : HeapAudioBuffer) (ns : List Int) :
    (runAdapts b ns)._channelData = b._channelData := by
  induction ns generalizing b with
  | nil => rfl
  | cons n ns ih => rw [runAdapts, ih, adaptChannel_channelData]

lemma runAdapts_invariant (b : HeapAudioBuffer) (ns : List Int)
    (h : b._channelCount ≤ b._maxChannelCount) :
    (runAdapts b ns)._channelCount ≤ (runAdapts b ns)._maxChannelCount := by
  induction ns generalizing b with
  | nil => exact h
  | cons n ns ih => exact ih _ (adaptChannel_channelCount_le b n h)

lemma construct_channelData_get (m : EmscriptenModule) (L cc : Nat)
    (mx : Option Int) (i : Nat) (hi : i < cc) :
    (HeapAudioBuffer.construct m L cc mx)._channelData.get? i =
      some { startIdx := (m.nextPtr + i * (L * BYTES_PER_SAMPLE)) >>> BYTES_PER_UNIT,
             endIdx := (m.nextPtr + i * (L * BYTES_PER_SAMPLE) + L * BYTES_PER_SAMPLE)
               >>> BYTES_PER_UNIT } := by
  unfold HeapAudioBuffer.construct allocateHeap EmscriptenModule.malloc
  simp only [List.get?_map, Int.toNat_natCast, List.get?_range hi, Option.map_some']

lemma view_byteStart_formula (p t : Nat) (h4 : p % 4 = 0) :
    ((p + t * 4) >>> 2) * 4 = p + t * 4 := by
  rw [Nat.shiftRight_eq_div_pow]
  omega

lemma view_count_formula (p t s : Nat) (h4 : p % 4 = 0) :
    ((p + t * 4 + s * 4) >>> 2) - ((p + t * 4) >>> 2) = s := by
  rw [Nat.shiftRight_eq_div_pow, Nat.shiftRight_eq_div_pow]
  omega

/-! ### Claims -/

/-- Claim C1, counterexample: constructing with `channelCount = 2`,
`maxChannelCount = 40` resolves the capacity to 32, yet the single
`_malloc` request is `2 * 128 * 4 = 1024` bytes -- sized by the
requested channel count, not by the capacity (`32 * 128 * 4 = 16384`). -/
theorem allocation_not_sized_by_capacity_cex :
    (HeapAudioBuffer.construct ⟨0, [], []⟩ 128 2 (some 40))._maxChannelCount = 32 ∧
    (HeapAudioBuffer.construct ⟨0, [], []⟩ 128 2 (some 40))._module.mallocLog
      = [(1024 : Int)] ∧
    (1024 : Int) ≠ 32 * 128 * 4 := by
  decide

/-- Claim C1, amended: the constructor requests exactly
`channelCount * frameLength * 4` bytes (sized by the requested channel
count, not the resolved capacity) in a single `_malloc` call, and the
allocation is never resized: no sequence of `adaptChannel` calls touches
the module state. -/
theorem construct_allocation_size (m : EmscriptenModule) (L cc : Nat)
    (mx : Option Int) :
    (HeapAudioBuffer.construct m L cc mx)._module.mallocLog =
      m.mallocLog ++ [((cc * (L * 4) : Nat) : Int)] ∧
    ∀ ns : List Int,
      (runAdapts (HeapAudioBuffer.construct m L cc mx) ns)._module =
        (HeapAudioBuffer.construct m L cc mx)._module := by
  refine ⟨?_, fun ns => runAdapts_module _ ns⟩
  unfold HeapAudioBuffer.construct allocateHeap EmscriptenModule.malloc
  simp only [BYTES_PER_SAMPLE]
  push_cast
  ring_nf

/-- Claim C2, counterexample: constructing with `channelCount = 2`,
`maxChannelCount = 40` resolves the capacity to 32, yet the channel-view
sequence has only 2 entries (one per *requested* channel), so the
no-argument `getChannelData` cannot return a sequence of length
`channelCapacity`. -/
theorem channelData_length_not_capacity_cex :
    (HeapAudioBuffer.construct ⟨0, [], []⟩ 128 2 (some 40))._maxChannelCount = 32 ∧
    (HeapAudioBuffer.construct ⟨0, [], []⟩ 128 2 (some 40))._channelData.length = 2 ∧
    (2 : Nat) ≠ 32 := by
  decide

/-- Claim C2, amended: the channel-view sequence is built with exactly
`channelCount` entries (one per *requested* channel, not per capacity
slot), is never recomputed while the instance is initialized (no
`adaptChannel` sequence changes it), and the no-argument
`getChannelData` form returns this full sequence. -/
theorem channelData_entries (m : EmscriptenModule) (L cc : Nat)
    (mx : Option Int) :
    (HeapAudioBuffer.construct m L cc mx)._channelData.length = cc ∧
    ∀ ns : List Int,
      (runAdapts (HeapAudioBuffer.construct m L cc mx) ns).getChannelDataAll =
        (HeapAudioBuffer.construct m L cc mx)._channelData := by
  constructor
  · unfold HeapAudioBuffer.construct allocateHeap EmscriptenModule.malloc
    simp
  · intro ns
    unfold HeapAudioBuffer.getChannelDataAll
    exact runAdapts_channelData _ ns

/-- Claim C3, counterexample: all three parts of the claimed invariant
fail on reachable initialized states.  With capacity 32 and active
count 2, `adaptChannel 10` *increases* the active count to 10; with
capacity 2, `adaptChannel 0` drives the active count to 0 (violating
`0 < activeChannelCount`); and constructing with `channelCount = 40`
and no `maxChannelCount` yields capacity 40 > 32. -/
theorem active_count_invariant_cex :
    (HeapAudioBuffer.construct ⟨0, [], []⟩ 128 2 (some 40))._channelCount = 2 ∧
    ((HeapAudioBuffer.construct ⟨0, [], []⟩ 128 2 (some 40)).adaptChannel 10)._channelCount
      = 10 ∧
    ((HeapAudioBuffer.construct ⟨0, [], []⟩ 128 2 (some 40)).adaptChannel 10)._isInitialized
      = true ∧
    ((HeapAudioBuffer.construct ⟨0, [], []⟩ 128 2 none).adaptChannel 0)._channelCount = 0 ∧
    ((HeapAudioBuffer.construct ⟨0, [], []⟩ 128 2 none).adaptChannel 0)._isInitialized
      = true ∧
    (HeapAudioBuffer.construct ⟨0, [], []⟩ 128 40 none)._maxChannelCount = 40 := by
  decide

/-- Claim C3, amended: while initialized, the invariant that does hold
in every reachable state is `activeChannelCount ≤ channelCapacity`,
provided the construction started with
`requestedChannelCount ≤ channelCapacity`.  Adaptation may set the
active count to any integer strictly below capacity -- including
increases above the current active count and non-positive values -- and
the capacity is clamped to 32 only when a nonzero `maxChannelCount` is
supplied. -/
theorem reachable_channelCount_le_capacity (m : EmscriptenModule)
    (L cc : Nat) (mx : Option Int) (ns : List Int)
    (h : (cc : Int) ≤ (HeapAudioBuffer.construct m L cc mx)._maxChannelCount) :
    (runAdapts (HeapAudioBuffer.construct m L cc mx) ns)._channelCount ≤
      (runAdapts (HeapAudioBuffer.construct m L cc mx) ns)._maxChannelCount :=
  runAdapts_invariant _ ns h

/-- Witness for `reachable_channelCount_le_capacity` at a concrete
construction and adaptation sequence. -/
theorem reachable_channelCount_le_capacity_witness :
    (runAdapts (HeapAudioBuffer.construct ⟨0, [], []⟩ 128 2 none) [1])._channelCount ≤
      (runAdapts (HeapAudioBuffer.construct ⟨0, [], []⟩ 128 2 none) [1])._maxChannelCount :=
  reachable_channelCount_le_capacity ⟨0, [], []⟩ 128 2 none [1] (by decide)

/-- Claim C4, counterexample: `maxChannelCount` is tested for JS
truthiness, not presence, so passing the explicit value `0` falls
through to `channelCount`: the capacity resolves to 2, not
`min 0 32 = 0`. -/
theorem capacity_zero_max_cex :
    (HeapAudioBuffer.construct ⟨0, [], []⟩ 128 2 (some 0))._maxChannelCount = 2 ∧
    (2 : Int) ≠ min 0 32 := by
  decide

/-- Claim C4, amended: if `maxChannelCount` is given and nonzero then
`channelCapacity = min(maxChannelCount, 32)`; if it is absent *or given
as the falsy value 0* then `channelCapacity = requestedChannelCount`;
in particular `channelCount = 2, maxChannelCount = 40` yields capacity
32 and active count 2. -/
theorem capacity_resolution (m : EmscriptenModule) (L cc : Nat) :
    (∀ v : Int, v ≠ 0 →
      (HeapAudioBuffer.construct m L cc (some v))._maxChannelCount
        = min v MAX_CHANNEL_COUNT) ∧
    (HeapAudioBuffer.construct m L cc none)._maxChannelCount = (cc : Int) ∧
    (HeapAudioBuffer.construct m L cc (some 0))._maxChannelCount = (cc : Int) ∧
    (HeapAudioBuffer.construct m 128 2 (some 40))._maxChannelCount = 32 ∧
    (HeapAudioBuffer.construct m 128 2 (some 40))._channelCount = 2 := by
  refine ⟨fun v hv => ?_, rfl, ?_, ?_, rfl⟩
  · unfold HeapAudioBuffer.construct
    simp [hv]
  · unfold HeapAudioBuffer.construct
    simp
  · unfold HeapAudioBuffer.construct
    norm_num [MAX_CHANNEL_COUNT]

/-- Witness for `capacity_resolution`, discharging the nonzero
hypothesis at `maxChannelCount = 40`. -/
theorem capacity_resolution_witness :
    (HeapAudioBuffer.construct ⟨0, [], []⟩ 128 2 (some 40))._maxChannelCount
      = min 40 MAX_CHANNEL_COUNT ∧
    (HeapAudioBuffer.construct ⟨0, [], []⟩ 128 2 none)._maxChannelCount = (2 : Int) :=
  ⟨(capacity_resolution ⟨0, [], []⟩ 128 2).1 40 (by decide),
   (capacity_resolution ⟨0, [], []⟩ 128 2).2.1⟩

/-- Claim C5, counterexample: after `free()`, the base-address accessors
`getHeapAddress` and `getPointer` still return the freed offset (64,
the very pointer recorded in the owner's free log), not a "no value"
sentinel -- the source has no `_isInitialized` guard on them. -/
theorem heapAddress_after_free_cex :
    ((HeapAudioBuffer.construct ⟨64, [], []⟩ 128 2 none).free)._isInitialized = false ∧
    ((HeapAudioBuffer.construct ⟨64, [], []⟩ 128 2 none).free).getHeapAddress = 64 ∧
    ((HeapAudioBuffer.construct ⟨64, [], []⟩ 128 2 none).free).getPointer = 64 ∧
    ((HeapAudioBuffer.construct ⟨64, [], []⟩ 128 2 none).free)._module.freeLog
      = [64] := by
  decide

/-- Claim C5, amended: after `free()` the query accessors `length`,
`numberOfChannels` and `maxChannelCount` return "no value", the
channel-view sequence is cleared (so no view into the freed region is
handed out), and `free` performs exactly one owner `_free` call and no
allocation; however the base-address accessors `getHeapAddress` and
`getPointer` do *not* return a sentinel -- they keep exposing the freed
offset. -/
theorem free_accessor_behavior (b : HeapAudioBuffer) :
    (b.free).length = none ∧
    (b.free).numberOfChannels = none ∧
    (b.free).maxChannelCount = none ∧
    (b.free).getChannelDataAll = [] ∧
    (b.free).getHeapAddress = b._dataPtr ∧
    (b.free).getPointer = b._dataPtr ∧
    (b.free)._module.mallocLog = b._module.mallocLog ∧
    (b.free)._module.freeLog = b._module.freeLog ++ [b._dataPtr] := by
  unfold HeapAudioBuffer.free HeapAudioBuffer.length HeapAudioBuffer.numberOfChannels
    HeapAudioBuffer.maxChannelCount HeapAudioBuffer.getChannelDataAll
    HeapAudioBuffer.getHeapAddress HeapAudioBuffer.getPointer EmscriptenModule.freeCall
  simp

/-- Claim C6, counterexample: with capacity 2, `adaptChannel 0` drives
the active count to 0 on a still-initialized instance; the claim then
demands `getChannelData 0 = none` (since `0 ≥ activeChannelCount`), but
the truthiness guard skips index 0 and the stored view is returned. -/
theorem getChannelData_zero_active_cex :
    ((HeapAudioBuffer.construct ⟨0, [], []⟩ 128 2 none).adaptChannel 0)._channelCount
      = 0 ∧
    ((HeapAudioBuffer.construct ⟨0, [], []⟩ 128 2 none).adaptChannel 0)._isInitialized
      = true ∧
    ((HeapAudioBuffer.construct ⟨0, [], []⟩ 128 2 none).adaptChannel 0).getChannelData 0
      = some { startIdx := 0, endIdx := 128 } := by
  decide

/-- Claim C6, amended: for every index ≥ 1 the indexed `getChannelData`
form behaves as claimed -- it returns "no value" when
`index ≥ activeChannelCount` (even when `index < channelCapacity`, the
guard never consults the capacity), and otherwise returns the stored
channel-view sequence entry at `index` (itself "no value" if the active
count was adapted above the number of stored views).  Index 0 is exempt
from the active-count check (see `getChannelData_zero_bypasses_check`). -/
theorem getChannelData_indexed_spec (b : HeapAudioBuffer) (index : Int)
    (h1 : 1 ≤ index) :
    (index < b._channelCount →
      b.getChannelData index = b._channelData.get? index.toNat) ∧
    (b._channelCount ≤ index → b.getChannelData index = none) := by
  unfold HeapAudioBuffer.getChannelData
  refine ⟨fun hlt => ?_, fun hge => ?_⟩
  · rw [if_neg (by omega), if_neg (by omega)]
  · rw [if_pos ⟨by omega, hge⟩]

/-- Witness for `getChannelData_indexed_spec`: on a freshly constructed
two-channel buffer, index 1 is in the active range and returns the
stored entry, while index 2 is out of range and returns "no value". -/
theorem getChannelData_indexed_spec_witness :
    (HeapAudioBuffer.construct ⟨0, [], []⟩ 128 2 none).getChannelData 1 =
      (HeapAudioBuffer.construct ⟨0, [], []⟩ 128 2 none)._channelData.get?
        (1 : Int).toNat ∧
    (HeapAudioBuffer.construct ⟨0, [], []⟩ 128 2 none).getChannelData 2 = none :=
  ⟨(getChannelData_indexed_spec (HeapAudioBuffer.construct ⟨0, [], []⟩ 128 2 none) 1
      (by decide)).1 (by decide),
   (getChannelData_indexed_spec (HeapAudioBuffer.construct ⟨0, [], []⟩ 128 2 none) 2
      (by decide)).2 (by decide)⟩

/-- Claim C7: `adaptChannel newCount` sets the active channel count to
exactly `newCount` when `newCount < channelCapacity`
(`_maxChannelCount`), and is a silent no-op -- the state is returned
entirely unchanged, never an error -- when `newCount ≥ channelCapacity`. -/
theorem adaptChannel_spec (b : HeapAudioBuffer) (newCount : Int) :
    (newCount < b._maxChannelCount →
      (b.adaptChannel newCount)._channelCount = newCount) ∧
    (b._maxChannelCount ≤ newCount → b.adaptChannel newCount = b) := by
  unfold HeapAudioBuffer.adaptChannel
  refine ⟨fun h => ?_, fun h => ?_⟩
  · rw [if_pos h]
  · rw [if_neg (not_lt.2 h)]

/-- Witness for `adaptChannel_spec`: on a capacity-2 buffer,
`adaptChannel 1` sets the active count to 1 and `adaptChannel 5` leaves
the state unchanged. -/
theorem adaptChannel_spec_witness :
    ((HeapAudioBuffer.construct ⟨0, [], []⟩ 128 2 none).adaptChannel 1)._channelCount
      = 1 ∧
    (HeapAudioBuffer.construct ⟨0, [], []⟩ 128 2 none).adaptChannel 5 =
      HeapAudioBuffer.construct ⟨0, [], []⟩ 128 2 none :=
  ⟨(adaptChannel_spec (HeapAudioBuffer.construct ⟨0, [], []⟩ 128 2 none) 1).1
      (by decide),
   (adaptChannel_spec (HeapAudioBuffer.construct ⟨0, [], []⟩ 128 2 none) 5).2
      (by decide)⟩

/-- Claim C8: provided the owner returns a 4-byte-aligned base pointer
(as Emscripten's `_malloc` does), the view at channel index `i` covers
exactly the byte range
`[baseOffset + i*frameLength*4, baseOffset + (i+1)*frameLength*4)`,
reinterpreted as `frameLength` 32-bit floats, and the views of distinct
channels cover disjoint, contiguous byte ranges (stated for `j < i`;
the symmetric case follows by exchanging the roles of the indices). -/
theorem channelView_byte_ranges (m : EmscriptenModule) (L cc : Nat)
    (mx : Option Int) (i : Nat) (h4 : m.nextPtr % 4 = 0) (hi : i < cc) :
    (∃ v, (HeapAudioBuffer.construct m L cc mx)._channelData.get? i = some v ∧
      v.byteStart = (HeapAudioBuffer.construct m L cc mx)._dataPtr + i * L * 4 ∧
      v.byteEnd = (HeapAudioBuffer.construct m L cc mx)._dataPtr + (i + 1) * L * 4 ∧
      v.numFloats = L) ∧
    (∀ j v w, j < i →
      (HeapAudioBuffer.construct m L cc mx)._channelData.get? j = some v →
      (HeapAudioBuffer.construct m L cc mx)._channelData.get? i = some w →
      v.byteEnd ≤ w.byteStart) := by
  have hview : ∀ k, k < cc →
      ∀ v, (HeapAudioBuffer.construct m L cc mx)._channelData.get? k = some v →
        v.byteStart = m.nextPtr + k * L * 4 ∧
        v.byteEnd = m.nextPtr + (k + 1) * L * 4 ∧
        v.numFloats = L := by
    intro k hk v hv
    rw [construct_channelData_get m L cc mx k hk] at hv
    injection hv with hv
    subst hv
    simp only [Float32View.byteStart, Float32View.byteEnd, Float32View.numFloats,
      BYTES_PER_SAMPLE, BYTES_PER_UNIT]
    refine ⟨?_, ?_, ?_⟩
    · rw [← mul_assoc]
      exact view_byteStart_formula m.nextPtr (k * L) h4
    · have e : m.nextPtr + k * (L * 4) + L * 4 = m.nextPtr + ((k + 1) * L) * 4 := by
        ring
      rw [e]
      exact view_byteStart_formula m.nextPtr ((k + 1) * L) h4
    · simp only [← mul_assoc]
      exact view_count_formula m.nextPtr (k * L) L h4
  constructor
  · refine ⟨_, construct_channelData_get m L cc mx i hi, ?_⟩
    have h := hview i hi _ (construct_channelData_get m L cc mx i hi)
    rw [construct_dataPtr]
    exact h
  · intro j v w hj hv hw
    have h1 := hview j (lt_trans hj hi) v hv
    have h2 := hview i hi w hw
    rw [h1.2.1, h2.1]
    have hmul : (j + 1) * L ≤ i * L := Nat.mul_le_mul_right L (by omega)
    have : (j + 1) * L * 4 ≤ i * L * 4 := Nat.mul_le_mul_right 4 hmul
    omega

/-- Witness for `channelView_byte_ranges` at a concrete aligned
construction (base pointer 8, frame length 128, two channels), at
channel index 1. -/
theorem channelView_byte_ranges_witness :
    (∃ v, (HeapAudioBuffer.construct ⟨8, [], []⟩ 128 2 none)._channelData.get? 1
        = some v ∧
      v.byteStart = (HeapAudioBuffer.construct ⟨8, [], []⟩ 128 2 none)._dataPtr
        + 1 * 128 * 4 ∧
      v.byteEnd = (HeapAudioBuffer.construct ⟨8, [], []⟩ 128 2 none)._dataPtr
        + (1 + 1) * 128 * 4 ∧
      v.numFloats = 128) ∧
    (∀ j v w, j < 1 →
      (HeapAudioBuffer.construct ⟨8, [], []⟩ 128 2 none)._channelData.get? j = some v →
      (HeapAudioBuffer.construct ⟨8, [], []⟩ 128 2 none)._channelData.get? 1 = some w →
      v.byteEnd ≤ w.byteStart) :=
  channelView_byte_ranges ⟨8, [], []⟩ 128 2 none 1 (by decide) (by decide)

/-- Claim C9: `adaptChannel` performs no call into the foreign memory
owner (the module state, with its malloc and free logs, is unchanged)
and changes no field other than `_channelCount`: `_length`,
`_maxChannelCount`, `_dataPtr`, `_isInitialized` and `_channelData` are
all preserved. -/
theorem adaptChannel_frame (b : HeapAudioBuffer) (newCount : Int) :
    (b.adaptChannel newCount)._module = b._module ∧
    (b.adaptChannel newCount)._length = b._length ∧
    (b.adaptChannel newCount)._maxChannelCount = b._maxChannelCount ∧
    (b.adaptChannel newCount)._dataPtr = b._dataPtr ∧
    (b.adaptChannel newCount)._isInitialized = b._isInitialized ∧
    (b.adaptChannel newCount)._channelData = b._channelData := by
  unfold HeapAudioBuffer.adaptChannel
  split <;> simp

/-- Claim C10: the indexed `getChannelData` guard tests the JS
truthiness of the index, so index 0 never reaches the active-count
bounds check: `getChannelData 0` returns the entry at position 0 of the
stored channel-view sequence unconditionally -- in particular even on
an initialized instance whose active count has been adapted to 0. -/
theorem getChannelData_zero_bypasses_check (b : HeapAudioBuffer) :
    b.getChannelData 0 = b._channelData.get? 0 := by
  unfold HeapAudioBuffer.getChannelData
  simp
